import Mathlib

/-!
Verification of the twilight in-memory cache (`cache/in-memory`) against its
natural-language specification.

The embedding models the observable behaviour of the cache engine in
`src/cache/in-memory/src/lib.rs` and the `InteractionCreate` event handler in
`src/cache/in-memory/src/event/interaction.rs`:

* each `DashMap` table is modelled by its observable lookup function, a map
  from keys to `Option` values; inserting overwrites the value at one key;
* `HashSet`/`BTreeSet`/`VecDeque` collections are modelled as lists;
* the singleton `current_user` `Mutex` is modelled by its contents plus a
  poison flag, and operations that call `.lock().expect(..)` on it return
  `Except String`, the error standing for the propagated panic;
* event handlers that live in repository source files not provided here are
  either modelled from the specification (the `cache_user` family, marked
  `Modelled from the spec:`) or abstracted as a handler family parameter of
  the dispatcher, so that theorems about the dispatch arms that are in the
  provided sources hold for every choice of the missing handlers.

Machine integers (64-bit snowflake ids) are modelled as naturals: no
arithmetic is ever performed on them, they are only compared for equality.
-/

namespace Twilight

/-- Snowflake identifier of a guild (an opaque 64-bit id, only compared). -/
abbrev GuildId := Nat
/-- Snowflake identifier of a channel. -/
abbrev ChannelId := Nat
/-- Snowflake identifier of a user. -/
abbrev UserId := Nat
/-- Snowflake identifier of an emoji. -/
abbrev EmojiId := Nat
/-- Snowflake identifier of a guild integration. -/
abbrev IntegrationId := Nat
/-- Snowflake identifier of a message. -/
abbrev MessageId := Nat
/-- Snowflake identifier of a role. -/
abbrev RoleId := Nat
/-- Snowflake identifier of a stage instance. -/
abbrev StageId := Nat
/-- Snowflake identifier of an application command. -/
abbrev CommandId := Nat

/-- Observable behaviour of one concurrent key-to-value table (a `DashMap`):
the function answering `get` for every key. -/
def DMap (K V : Type) : Type := K → Option V

namespace DMap

variable {K V : Type}

/-- Lookup, `DashMap::get` followed by a clone of the stored value. -/
def get (m : DMap K V) (k : K) : Option V := m k

/-- `DashMap::insert`: overwrite the value stored at `k`. -/
def insert [DecidableEq K] (m : DMap K V) (k : K) (v : V) : DMap K V :=
  fun q => if q = k then some v else m q

/-- The empty table. -/
def empty : DMap K V := fun _ => none

theorem get_empty (k : K) : (empty : DMap K V).get k = none := rfl

theorem get_insert_self [DecidableEq K] (m : DMap K V) (k : K) (v : V) :
    (m.insert k v).get k = some v := by
  simp [get, insert]

theorem get_insert [DecidableEq K] (m : DMap K V) (k q : K) (v : V) :
    (m.insert k v).get q = if q = k then some v else m.get q := rfl

end DMap

/-- A value stored together with the id of the guild that owns it
(`struct GuildItem` in `lib.rs`). -/
structure GuildItem (V : Type) where
  data : V
  guild_id : GuildId
deriving DecidableEq

/-- Embeds `upsert_guild_item` from `lib.rs`.  The source mutates the map in
place and returns nothing; here the new map is returned together with a
`Bool` recording whether the store was written (the occupied-and-equal arm of
the source `match` performs no write at all). -/
def upsert_guild_item {K V : Type} [DecidableEq K] [DecidableEq V]
    (map : DMap K (GuildItem V)) (guild_id : GuildId) (key : K) (value : V) :
    DMap K (GuildItem V) × Bool :=
  match map.get key with
  | some entry =>
    if entry.data = value then (map, false)
    else (map.insert key ⟨value, guild_id⟩, true)
  | none => (map.insert key ⟨value, guild_id⟩, true)

/-- Embeds `upsert_item` from `lib.rs`: `map.insert(k, v)`, an unconditional
write.  The `Bool` records that the store was written. -/
def upsert_item {K V : Type} [DecidableEq K] (map : DMap K V) (k : K) (v : V) :
    DMap K V × Bool :=
  (map.insert k v, true)

/-- The `User` entity, fields as in `src/model/src/user/mod.rs` (the
`UserFlags` and `PremiumType` payloads are opaque to the cache and modelled
as naturals). -/
structure User where
  avatar : Option String
  bot : Bool
  discriminator : String
  email : Option String
  flags : Option Nat
  id : UserId
  locale : Option String
  mfa_enabled : Option Bool
  name : String
  premium_type : Option Nat
  public_flags : Option Nat
  system : Option Bool
  verified : Option Bool
deriving DecidableEq

/-- The singleton current authenticated user (payload opaque to the claims). -/
structure CurrentUser where
  id : UserId
  name : String
deriving DecidableEq

/-- Modelled from the spec: entity schemas are pre-validated structured
records supplied by the model layer (§6); only identity matters to the
claims, so each carries its id. -/
structure GuildChannel where
  id : ChannelId
deriving DecidableEq

/-- Modelled from the spec: a direct-message channel record. -/
structure PrivateChannel where
  id : ChannelId
deriving DecidableEq

/-- Modelled from the spec: a group channel record. -/
structure Group where
  id : ChannelId
deriving DecidableEq

/-- Modelled from the spec: the cached projection of a guild. -/
structure CachedGuild where
  id : GuildId
deriving DecidableEq

/-- Modelled from the spec: the cached projection of an emoji. -/
structure CachedEmoji where
  id : EmojiId
deriving DecidableEq

/-- Modelled from the spec: a guild integration record. -/
structure GuildIntegration where
  id : IntegrationId
deriving DecidableEq

/-- Modelled from the spec: the cached projection of a member; the user id is
the part of the key also stored in the record. -/
structure CachedMember where
  user_id : UserId
  nick : Option String
  roles : List RoleId
deriving DecidableEq

/-- Modelled from the spec: a message held in a channel window; it carries
the message id that `InMemoryCache::message` scans for. -/
structure CachedMessage where
  id : MessageId
  content : String
deriving DecidableEq

/-- Modelled from the spec: the cached projection of a presence. -/
structure CachedPresence where
  user_id : UserId
deriving DecidableEq

/-- Modelled from the spec: a stage instance record. -/
structure StageInstance where
  id : StageId
deriving DecidableEq

/-- Modelled from the spec: a voice state, keyed by guild and user and also
indexed by channel. -/
structure VoiceState where
  channel_id : Option ChannelId
  guild_id : Option GuildId
  user_id : UserId
deriving DecidableEq

/-- The `Role` entity, fields as constructed in the test of
`src/cache/in-memory/src/event/interaction.rs` (permissions bitflags and
tags payloads modelled as naturals). -/
structure Role where
  color : Nat
  hoist : Bool
  id : RoleId
  managed : Bool
  mentionable : Bool
  name : String
  permissions : Nat
  position : Int
  tags : Option Nat
deriving DecidableEq

/-- A `PartialMember` payload, fields as constructed in the test of
`interaction.rs`; its embedded user is optional. -/
structure PartialMember where
  deaf : Bool
  joined_at : Option String
  mute : Bool
  nick : Option String
  permissions : Option Nat
  premium_since : Option String
  roles : List RoleId
  user : Option User
deriving DecidableEq

/-- An `InteractionMember` of a resolved-data payload, fields as constructed
in the test of `interaction.rs`. -/
structure InteractionMember where
  hoisted_role : Option RoleId
  id : UserId
  joined_at : Option String
  nick : Option String
  premium_since : Option String
  roles : List RoleId
deriving DecidableEq

/-- The `CommandInteractionDataResolved` payload (resolved channels are
opaque to the handler and carried as ids). -/
structure CommandInteractionDataResolved where
  channels : List ChannelId
  members : List InteractionMember
  roles : List Role
  users : List User
deriving DecidableEq

/-- The `CommandData` payload of an application command (options are opaque
to the cache). -/
structure CommandData where
  id : CommandId
  name : String
  options : List Nat
  resolved : Option CommandInteractionDataResolved
deriving DecidableEq

/-- An `ApplicationCommand` interaction payload, fields as constructed in the
test of `interaction.rs` (`kind` is the interaction-type tag, opaque here). -/
structure ApplicationCommand where
  application_id : Nat
  channel_id : ChannelId
  data : CommandData
  guild_id : Option GuildId
  id : Nat
  kind : Nat
  member : Option PartialMember
  token : String
  user : Option User
deriving DecidableEq

/-- The interaction sum type.  The handler in `interaction.rs` matches only
the `ApplicationCommand` variant and treats every other variant with the
catch-all `_ =\x7b\x7d` arm, so the remaining variants are collapsed into one. -/
inductive Interaction where
  | applicationCommand (command : ApplicationCommand)
  | notApplicationCommand
deriving DecidableEq

/-- Modelled from the spec: the named resource categories of the
construction-time bitmask (`ResourceType` in the crate's `config.rs`, which
is not among the provided sources; §4.4 of the spec). -/
inductive ResourceCategory where
  | channel
  | emoji
  | guild
  | integration
  | member
  | message
  | presence
  | reaction
  | role
  | userCurrent
  | user
  | voiceState
  | stageInstance
deriving DecidableEq

/-- Modelled from the spec: construction configuration, a resource-type
bitmask (membership function over the categories) and a message cache size
(§6), both fixed for the cache's lifetime. -/
structure Config where
  resource_types : ResourceCategory → Bool
  message_cache_size : Nat

/-- The tables of `struct InMemoryCacheRef` in `lib.rs`, one field per
source field; the `current_user` mutex is its contents plus a poison flag. -/
structure CacheState where
  config : Config
  channels_guild : DMap ChannelId (GuildItem GuildChannel)
  channels_private : DMap ChannelId PrivateChannel
  current_user_poisoned : Bool
  current_user : Option CurrentUser
  emojis : DMap EmojiId (GuildItem CachedEmoji)
  groups : DMap ChannelId Group
  guilds : DMap GuildId CachedGuild
  guild_channels : DMap GuildId (List ChannelId)
  guild_emojis : DMap GuildId (List EmojiId)
  guild_integrations : DMap GuildId (List IntegrationId)
  guild_members : DMap GuildId (List UserId)
  guild_presences : DMap GuildId (List UserId)
  guild_roles : DMap GuildId (List RoleId)
  guild_stage_instances : DMap GuildId (List StageId)
  integrations : DMap (GuildId × IntegrationId) (GuildItem GuildIntegration)
  members : DMap (GuildId × UserId) CachedMember
  messages : DMap ChannelId (List CachedMessage)
  presences : DMap (GuildId × UserId) CachedPresence
  roles : DMap RoleId (GuildItem Role)
  stage_instances : DMap StageId (GuildItem StageInstance)
  unavailable_guilds : List GuildId
  users : DMap UserId (User × List GuildId)
  voice_state_channels : DMap ChannelId (List (GuildId × UserId))
  voice_state_guilds : DMap GuildId (List UserId)
  voice_states : DMap (GuildId × UserId) VoiceState

/-- A freshly constructed cache, `InMemoryCache::new_with_config`: every
table empty, no current user, the mutex healthy. -/
def freshState (config : Config) : CacheState where
  config := config
  channels_guild := DMap.empty
  channels_private := DMap.empty
  current_user_poisoned := false
  current_user := none
  emojis := DMap.empty
  groups := DMap.empty
  guilds := DMap.empty
  guild_channels := DMap.empty
  guild_emojis := DMap.empty
  guild_integrations := DMap.empty
  guild_members := DMap.empty
  guild_presences := DMap.empty
  guild_roles := DMap.empty
  guild_stage_instances := DMap.empty
  integrations := DMap.empty
  members := DMap.empty
  messages := DMap.empty
  presences := DMap.empty
  roles := DMap.empty
  stage_instances := DMap.empty
  unavailable_guilds := []
  users := DMap.empty
  voice_state_channels := DMap.empty
  voice_state_guilds := DMap.empty
  voice_states := DMap.empty

/-- `InMemoryCache::wants`: whether the configured bitmask contains the
resource category. -/
def wants (cache : CacheState) (resource_type : ResourceCategory) : Bool :=
  cache.config.resource_types resource_type

/-- `InMemoryCache::clear`: empty every table and take the current-user
value; taking the poisoned mutex propagates the panic of
`.expect("current user poisoned")` as an error.  The source's list of
`.clear()` calls (`lib.rs` lines 228-256) omits the `stage_instances`
table (it clears `guild_stage_instances` but never calls
`self.0.stage_instances.clear()`), so that one table survives a clear. -/
def clear (cache : CacheState) : Except String CacheState :=
  if cache.current_user_poisoned then Except.error "current user poisoned"
  else Except.ok { freshState cache.config with stage_instances := cache.stage_instances }

/-- `InMemoryCache::current_user`: clone the mutex contents; a poisoned
mutex propagates the panic of `.expect("current user poisoned")`. -/
def current_user (cache : CacheState) : Except String (Option CurrentUser) :=
  if cache.current_user_poisoned then Except.error "current user poisoned"
  else Except.ok cache.current_user

/-- `InMemoryCache::emoji`. -/
def emoji (cache : CacheState) (emoji_id : EmojiId) : Option CachedEmoji :=
  (cache.emojis.get emoji_id).map GuildItem.data

/-- `InMemoryCache::group`. -/
def group (cache : CacheState) (channel_id : ChannelId) : Option Group :=
  cache.groups.get channel_id

/-- `InMemoryCache::guild`. -/
def guild (cache : CacheState) (guild_id : GuildId) : Option CachedGuild :=
  cache.guilds.get guild_id

/-- `InMemoryCache::guild_channel`. -/
def guild_channel (cache : CacheState) (channel_id : ChannelId) : Option GuildChannel :=
  (cache.channels_guild.get channel_id).map GuildItem.data

/-- `InMemoryCache::guild_channels`. -/
def guild_channels (cache : CacheState) (guild_id : GuildId) : Option (List ChannelId) :=
  cache.guild_channels.get guild_id

/-- `InMemoryCache::guild_emojis`. -/
def guild_emojis (cache : CacheState) (guild_id : GuildId) : Option (List EmojiId) :=
  cache.guild_emojis.get guild_id

/-- `InMemoryCache::guild_members`. -/
def guild_members (cache : CacheState) (guild_id : GuildId) : Option (List UserId) :=
  cache.guild_members.get guild_id

/-- `InMemoryCache::guild_presences`. -/
def guild_presences (cache : CacheState) (guild_id : GuildId) : Option (List UserId) :=
  cache.guild_presences.get guild_id

/-- `InMemoryCache::guild_roles`. -/
def guild_roles (cache : CacheState) (guild_id : GuildId) : Option (List RoleId) :=
  cache.guild_roles.get guild_id

/-- `InMemoryCache::guild_stage_instances`. -/
def guild_stage_instances (cache : CacheState) (guild_id : GuildId) : Option (List StageId) :=
  cache.guild_stage_instances.get guild_id

/-- `InMemoryCache::member`. -/
def member (cache : CacheState) (guild_id : GuildId) (user_id : UserId) : Option CachedMember :=
  cache.members.get (guild_id, user_id)

/-- `InMemoryCache::message`: look up the channel's window, then linearly
scan it for the first message whose id equals `message_id`, returning a
clone. -/
def message (cache : CacheState) (channel_id : ChannelId) (message_id : MessageId) :
    Option CachedMessage :=
  (cache.messages.get channel_id).bind fun channel =>
    channel.find? fun msg => msg.id == message_id

/-- `InMemoryCache::presence`. -/
def presence (cache : CacheState) (guild_id : GuildId) (user_id : UserId) :
    Option CachedPresence :=
  cache.presences.get (guild_id, user_id)

/-- `InMemoryCache::private_channel`. -/
def private_channel (cache : CacheState) (channel_id : ChannelId) : Option PrivateChannel :=
  cache.channels_private.get channel_id

/-- `InMemoryCache::role`. -/
def role (cache : CacheState) (role_id : RoleId) : Option Role :=
  (cache.roles.get role_id).map GuildItem.data

/-- `InMemoryCache::stage_instance`. -/
def stage_instance (cache : CacheState) (stage_id : StageId) : Option StageInstance :=
  (cache.stage_instances.get stage_id).map GuildItem.data

/-- `InMemoryCache::user`. -/
def user (cache : CacheState) (user_id : UserId) : Option User :=
  (cache.users.get user_id).map Prod.fst

/-- `InMemoryCache::voice_channel_states`: absent when the channel has no
index set; otherwise every key of the set is looked up in the voice-state
table and the hits are collected, misses silently skipped
(`filter_map` in the source). -/
def voice_channel_states (cache : CacheState) (channel_id : ChannelId) :
    Option (List VoiceState) :=
  match cache.voice_state_channels.get channel_id with
  | none => none
  | some user_ids => some (user_ids.filterMap fun key => cache.voice_states.get key)

/-- `InMemoryCache::voice_state`. -/
def voice_state (cache : CacheState) (user_id : UserId) (guild_id : GuildId) :
    Option VoiceState :=
  cache.voice_states.get (guild_id, user_id)

/-- Insert an id into a parent's id set, creating the set if absent
(the Index Maintainer discipline of §4.2 of the spec). -/
def insert_id {K A : Type} [DecidableEq K] [DecidableEq A]
    (m : DMap K (List A)) (k : K) (a : A) : DMap K (List A) :=
  match m.get k with
  | some s => m.insert k (if a ∈ s then s else a :: s)
  | none => m.insert k [a]

/-- Modelled from the spec: `InMemoryCache::cache_user` lives in an event
module of this crate that is not among the provided sources.  Per §3 of the
spec, the user record is upserted and reference bookkeeping keeps a per-user
set of referencing guild ids, extended with `guild_id` when one is given.
Only the `users` table is touched. -/
def cache_user (cache : CacheState) (u : User) (guild_id : Option GuildId) : CacheState :=
  let prev :=
    match cache.users.get u.id with
    | some p => p.2
    | none => []
  let refs :=
    match guild_id with
    | some g => if g ∈ prev then prev else g :: prev
    | none => prev
  { cache with users := cache.users.insert u.id (u, refs) }

/-- Modelled from the spec: the cached member record built from a partial
member payload (field-level projection, §4.3). -/
def member_from_partial_payload (m : PartialMember) (user_id : UserId) : CachedMember :=
  { user_id := user_id, nick := m.nick, roles := m.roles }

/-- Modelled from the spec: `InMemoryCache::cache_borrowed_partial_member`
lives in an event module not among the provided sources.  Per §4.2 and §4.3,
it upserts the member record and inserts the user id into the guild's member
index set; only the `members` and `guild_members` tables are touched. -/
def cache_borrowed_partial_member (cache : CacheState) (guild_id : GuildId)
    (m : PartialMember) (user_id : UserId) : CacheState :=
  { cache with
    guild_members := insert_id cache.guild_members guild_id user_id
    members := cache.members.insert (guild_id, user_id) (member_from_partial_payload m user_id) }

/-- Modelled from the spec: the cached member record built from a resolved
interaction member payload. -/
def member_from_interaction (m : InteractionMember) : CachedMember :=
  { user_id := m.id, nick := m.nick, roles := m.roles }

/-- Modelled from the spec: `InMemoryCache::cache_borrowed_interaction_member`
lives in an event module not among the provided sources.  Per §4.2 and §4.3,
it upserts the member record and maintains the guild's member index set; only
the `members` and `guild_members` tables are touched. -/
def cache_borrowed_interaction_member (cache : CacheState) (guild_id : GuildId)
    (m : InteractionMember) : CacheState :=
  { cache with
    guild_members := insert_id cache.guild_members guild_id m.id
    members := cache.members.insert (guild_id, m.id) (member_from_interaction m) }

/-- Modelled from the spec: `InMemoryCache::cache_roles` lives in an event
module not among the provided sources.  Per §4.1 and §4.2, each role is
upserted into the role table (through the guild-item path, the roles table
holding `GuildItem<Role>`) and its id inserted into the guild's role index
set; only the `roles` and `guild_roles` tables are touched. -/
def cache_roles (cache : CacheState) (guild_id : GuildId) (rs : List Role) : CacheState :=
  rs.foldl
    (fun c r =>
      { c with
        roles := (upsert_guild_item c.roles guild_id r.id r).1
        guild_roles := insert_id c.guild_roles guild_id r.id })
    cache

/-- The first block of `impl UpdateCache for InteractionCreate` in
`src/cache/in-memory/src/event/interaction.rs`: when the member category is
wanted and the command carries a member with an embedded user, cache the
user and then cache the partial member under `command.guild_id.unwrap()`.
The `Except` error stands for the panic of `unwrap` on `None`, raised after
the user has already been cached. -/
def interaction_member_step (cache : CacheState) (command : ApplicationCommand) :
    Except String CacheState :=
  if wants cache .member then
    match command.member with
    | some m =>
      match m.user with
      | some u =>
        let cu := cache_user cache u command.guild_id
        match command.guild_id with
        | some gid => Except.ok (cache_borrowed_partial_member cu gid m u.id)
        | none => Except.error "called `Option::unwrap()` on a `None` value"
      | none => Except.ok cache
    | none => Except.ok cache
  else Except.ok cache

/-- The second block of the handler: cache the standalone `command.user`
when present (with no guild reference). -/
def interaction_user_step (command : ApplicationCommand) (c : CacheState) : CacheState :=
  match command.user with
  | some u => cache_user c u none
  | none => c

/-- The body of the `for u in &resolved.users` loop of the handler: cache
the resolved user, then, unless the member category is unwanted or the
command has no guild id, cache the matching resolved member. -/
def interaction_resolved_user_step (cache : CacheState) (command : ApplicationCommand)
    (resolved : CommandInteractionDataResolved) (c : CacheState) (u : User) : CacheState :=
  let c := cache_user c u command.guild_id
  if !(wants cache .member) || command.guild_id.isNone then c
  else
    match resolved.members.find? fun m => m.id == u.id with
    | some m =>
      match command.guild_id with
      | some gid => cache_borrowed_interaction_member c gid m
      | none => c
    | none => c

/-- The third block of the handler: when resolved data is present, run the
resolved-user loop and then, when the role category is wanted and a guild id
is present, cache the resolved roles. -/
def interaction_resolved_step (cache : CacheState) (command : ApplicationCommand)
    (c : CacheState) : CacheState :=
  match command.data.resolved with
  | some resolved =>
    let cu := resolved.users.foldl (interaction_resolved_user_step cache command resolved) c
    if wants cache .role then
      match command.guild_id with
      | some gid => cache_roles cu gid resolved.roles
      | none => cu
    else cu
  | none => c

/-- Embeds `impl UpdateCache for InteractionCreate` from
`src/cache/in-memory/src/event/interaction.rs`: the three blocks above in
the source's program order for an application command, the catch-all arm a
no-op.  The `Except` error stands for a panic. -/
def update_interaction_create (interaction : Interaction) (cache : CacheState) :
    Except String CacheState :=
  match interaction with
  | .applicationCommand command =>
    match interaction_member_step cache command with
    | Except.error e => Except.error e
    | Except.ok c1 =>
      Except.ok (interaction_resolved_step cache command (interaction_user_step command c1))
  | .notApplicationCommand => Except.ok cache

/-- An inbound event payload whose contents the claims never inspect: the
payload types of the gateway event enum are not among the provided sources,
and the dispatch arms either ignore them or forward them whole. -/
structure RawPayload where
  data : Nat
deriving DecidableEq

/-- The closed set of inbound gateway event kinds, one constructor per arm of
the `match` in `impl UpdateCache for Event` in `lib.rs` (58 arms).  Arms
whose source handler discards the payload or forwards it to a handler
outside the provided sources carry a `RawPayload`; `InteractionCreate`
carries its real payload. -/
inductive Event where
  | banAdd (v : RawPayload)
  | banRemove (v : RawPayload)
  | channelCreate (v : RawPayload)
  | channelDelete (v : RawPayload)
  | channelPinsUpdate (v : RawPayload)
  | channelUpdate (v : RawPayload)
  | gatewayHeartbeat (v : RawPayload)
  | gatewayHeartbeatAck
  | gatewayHello (v : RawPayload)
  | gatewayInvalidateSession (v : RawPayload)
  | gatewayReconnect
  | giftCodeUpdate
  | guildCreate (v : RawPayload)
  | guildDelete (v : RawPayload)
  | guildEmojisUpdate (v : RawPayload)
  | guildIntegrationsUpdate (v : RawPayload)
  | guildUpdate (v : RawPayload)
  | integrationCreate (v : RawPayload)
  | integrationDelete (v : RawPayload)
  | integrationUpdate (v : RawPayload)
  | interactionCreate (v : Interaction)
  | inviteCreate (v : RawPayload)
  | inviteDelete (v : RawPayload)
  | memberAdd (v : RawPayload)
  | memberRemove (v : RawPayload)
  | memberUpdate (v : RawPayload)
  | memberChunk (v : RawPayload)
  | messageCreate (v : RawPayload)
  | messageDelete (v : RawPayload)
  | messageDeleteBulk (v : RawPayload)
  | messageUpdate (v : RawPayload)
  | presenceUpdate (v : RawPayload)
  | presencesReplace
  | reactionAdd (v : RawPayload)
  | reactionRemove (v : RawPayload)
  | reactionRemoveAll (v : RawPayload)
  | reactionRemoveEmoji (v : RawPayload)
  | ready (v : RawPayload)
  | resumed
  | roleCreate (v : RawPayload)
  | roleDelete (v : RawPayload)
  | roleUpdate (v : RawPayload)
  | shardConnected (v : RawPayload)
  | shardConnecting (v : RawPayload)
  | shardDisconnected (v : RawPayload)
  | shardIdentifying (v : RawPayload)
  | shardReconnecting (v : RawPayload)
  | shardPayload (v : RawPayload)
  | shardResuming (v : RawPayload)
  | stageInstanceCreate (v : RawPayload)
  | stageInstanceDelete (v : RawPayload)
  | stageInstanceUpdate (v : RawPayload)
  | typingStart (v : RawPayload)
  | unavailableGuild (v : RawPayload)
  | userUpdate (v : RawPayload)
  | voiceServerUpdate (v : RawPayload)
  | voiceStateUpdate (v : RawPayload)
  | webhooksUpdate (v : RawPayload)

/-- The dispatch arms of `impl UpdateCache for Event` whose per-event
handlers live in event modules not among the provided sources (every
forwarding arm except `InteractionCreate`). -/
inductive HandlerKind where
  | channelCreate
  | channelDelete
  | channelPinsUpdate
  | channelUpdate
  | guildCreate
  | guildDelete
  | guildEmojisUpdate
  | guildUpdate
  | integrationCreate
  | integrationDelete
  | integrationUpdate
  | memberAdd
  | memberRemove
  | memberUpdate
  | memberChunk
  | messageCreate
  | messageDelete
  | messageDeleteBulk
  | messageUpdate
  | presenceUpdate
  | reactionAdd
  | reactionRemove
  | reactionRemoveAll
  | reactionRemoveEmoji
  | ready
  | roleCreate
  | roleDelete
  | roleUpdate
  | stageInstanceCreate
  | stageInstanceDelete
  | stageInstanceUpdate
  | unavailableGuild
  | userUpdate
  | voiceStateUpdate
deriving DecidableEq

/-- The family of per-event handlers whose code is not among the provided
sources; the dispatcher below is parameterised over it, so the theorems
about the arms that are in the provided sources hold for every choice. -/
abbrev Handlers := HandlerKind → RawPayload → CacheState → CacheState

/-- The handler family in which every missing handler leaves the cache
untouched. -/
def idHandlers : Handlers := fun _ _ c => c

/-- Embeds the `match` of `impl UpdateCache for Event` in `lib.rs`: the
dispatcher is a total function on the closed event set.  Arms written
`=> \x7b\x7d` in the source return the cache unchanged; forwarding arms apply
the per-event handler; the `InteractionCreate` arm applies the handler from
the provided sources, whose panic is the `Except` error. -/
def update_event (h : Handlers) (e : Event) (c : CacheState) : Except String CacheState :=
  match e with
  | .banAdd _ => Except.ok c
  | .banRemove _ => Except.ok c
  | .channelCreate v => Except.ok (h .channelCreate v c)
  | .channelDelete v => Except.ok (h .channelDelete v c)
  | .channelPinsUpdate v => Except.ok (h .channelPinsUpdate v c)
  | .channelUpdate v => Except.ok (h .channelUpdate v c)
  | .gatewayHeartbeat _ => Except.ok c
  | .gatewayHeartbeatAck => Except.ok c
  | .gatewayHello _ => Except.ok c
  | .gatewayInvalidateSession _ => Except.ok c
  | .gatewayReconnect => Except.ok c
  | .giftCodeUpdate => Except.ok c
  | .guildCreate v => Except.ok (h .guildCreate v c)
  | .guildDelete v => Except.ok (h .guildDelete v c)
  | .guildEmojisUpdate v => Except.ok (h .guildEmojisUpdate v c)
  | .guildIntegrationsUpdate _ => Except.ok c
  | .guildUpdate v => Except.ok (h .guildUpdate v c)
  | .integrationCreate v => Except.ok (h .integrationCreate v c)
  | .integrationDelete v => Except.ok (h .integrationDelete v c)
  | .integrationUpdate v => Except.ok (h .integrationUpdate v c)
  | .interactionCreate v => update_interaction_create v c
  | .inviteCreate _ => Except.ok c
  | .inviteDelete _ => Except.ok c
  | .memberAdd v => Except.ok (h .memberAdd v c)
  | .memberRemove v => Except.ok (h .memberRemove v c)
  | .memberUpdate v => Except.ok (h .memberUpdate v c)
  | .memberChunk v => Except.ok (h .memberChunk v c)
  | .messageCreate v => Except.ok (h .messageCreate v c)
  | .messageDelete v => Except.ok (h .messageDelete v c)
  | .messageDeleteBulk v => Except.ok (h .messageDeleteBulk v c)
  | .messageUpdate v => Except.ok (h .messageUpdate v c)
  | .presenceUpdate v => Except.ok (h .presenceUpdate v c)
  | .presencesReplace => Except.ok c
  | .reactionAdd v => Except.ok (h .reactionAdd v c)
  | .reactionRemove v => Except.ok (h .reactionRemove v c)
  | .reactionRemoveAll v => Except.ok (h .reactionRemoveAll v c)
  | .reactionRemoveEmoji v => Except.ok (h .reactionRemoveEmoji v c)
  | .ready v => Except.ok (h .ready v c)
  | .resumed => Except.ok c
  | .roleCreate v => Except.ok (h .roleCreate v c)
  | .roleDelete v => Except.ok (h .roleDelete v c)
  | .roleUpdate v => Except.ok (h .roleUpdate v c)
  | .shardConnected _ => Except.ok c
  | .shardConnecting _ => Except.ok c
  | .shardDisconnected _ => Except.ok c
  | .shardIdentifying _ => Except.ok c
  | .shardReconnecting _ => Except.ok c
  | .shardPayload _ => Except.ok c
  | .shardResuming _ => Except.ok c
  | .stageInstanceCreate v => Except.ok (h .stageInstanceCreate v c)
  | .stageInstanceDelete v => Except.ok (h .stageInstanceDelete v c)
  | .stageInstanceUpdate v => Except.ok (h .stageInstanceUpdate v c)
  | .typingStart _ => Except.ok c
  | .unavailableGuild v => Except.ok (h .unavailableGuild v c)
  | .userUpdate v => Except.ok (h .userUpdate v c)
  | .voiceServerUpdate _ => Except.ok c
  | .voiceStateUpdate v => Except.ok (h .voiceStateUpdate v c)
  | .webhooksUpdate _ => Except.ok c

/-- Ingest a stream of events in order, stopping at the first panic. -/
def apply_events (h : Handlers) (events : List Event) (c : CacheState) :
    Except String CacheState :=
  match events with
  | [] => Except.ok c
  | e :: rest =>
    match update_event h e c with
    | Except.ok c' => apply_events h rest c'
    | Except.error msg => Except.error msg

/-- The connection-lifecycle, typing-indicator and ban event kinds: the
gateway and shard lifecycle notifications, `TypingStart`, `BanAdd` and
`BanRemove`. -/
def lifecycle_typing_or_ban (e : Event) : Bool :=
  match e with
  | .banAdd _ => true
  | .banRemove _ => true
  | .gatewayHeartbeat _ => true
  | .gatewayHeartbeatAck => true
  | .gatewayHello _ => true
  | .gatewayInvalidateSession _ => true
  | .gatewayReconnect => true
  | .resumed => true
  | .shardConnected _ => true
  | .shardConnecting _ => true
  | .shardDisconnected _ => true
  | .shardIdentifying _ => true
  | .shardReconnecting _ => true
  | .shardPayload _ => true
  | .shardResuming _ => true
  | .typingStart _ => true
  | _ => false

/-- The member-category slice of a cache state: the member table, the
guild-member index, and the immutable configuration. -/
def memberView (c : CacheState) :
    DMap (GuildId × UserId) CachedMember × DMap GuildId (List UserId) × Config :=
  (c.members, c.guild_members, c.config)

/-- The role-category slice of a cache state: the role table, the guild-role
index, and the immutable configuration. -/
def roleView (c : CacheState) :
    DMap RoleId (GuildItem Role) × DMap GuildId (List RoleId) × Config :=
  (c.roles, c.guild_roles, c.config)

/-- A handler family respects the member gate when, with the member category
disabled in the mask, no missing handler touches the member table, the
guild-member index, or the immutable configuration (the Gate discipline of
§4.4 of the spec, assumed for the handlers whose code is not among the
provided sources). -/
def MemberGateRespecting (h : Handlers) : Prop :=
  ∀ k v c, wants c .member = false → memberView (h k v c) = memberView c

/-- A handler family respects the role gate when, with the role category
disabled in the mask, no missing handler touches the role table, the
guild-role index, or the immutable configuration. -/
def RoleGateRespecting (h : Handlers) : Prop :=
  ∀ k v c, wants c .role = false → roleView (h k v c) = roleView c

theorem foldl_proj {α β : Type} (f : CacheState → α → CacheState) (proj : CacheState → β)
    (hf : ∀ c a, proj (f c a) = proj c) :
    ∀ (l : List α) (c : CacheState), proj (l.foldl f c) = proj c := by
  intro l
  induction l with
  | nil => intro c; rfl
  | cons a t ih => intro c; rw [List.foldl_cons, ih, hf]

theorem memberView_cache_roles (c : CacheState) (g : GuildId) (rs : List Role) :
    memberView (cache_roles c g rs) = memberView c := by
  unfold cache_roles
  apply foldl_proj
  intros
  rfl

theorem roleView_user_step (cmd : ApplicationCommand) (c : CacheState) :
    roleView (interaction_user_step cmd c) = roleView c := by
  unfold interaction_user_step
  split <;> rfl

theorem memberView_user_step (cmd : ApplicationCommand) (c : CacheState) :
    memberView (interaction_user_step cmd c) = memberView c := by
  unfold interaction_user_step
  split <;> rfl

theorem memberView_resolved_user_step (cache : CacheState) (cmd : ApplicationCommand)
    (resolved : CommandInteractionDataResolved) (c : CacheState) (u : User)
    (hw : wants cache .member = false) :
    memberView (interaction_resolved_user_step cache cmd resolved c u) = memberView c := by
  unfold interaction_resolved_user_step
  simp only [hw, Bool.not_false, Bool.true_or, if_true]
  rfl

theorem roleView_resolved_user_step (cache : CacheState) (cmd : ApplicationCommand)
    (resolved : CommandInteractionDataResolved) (c : CacheState) (u : User) :
    roleView (interaction_resolved_user_step cache cmd resolved c u) = roleView c := by
  unfold interaction_resolved_user_step
  split
  · rfl
  · split
    · split <;> rfl
    · rfl

theorem memberView_resolved_step (cache : CacheState) (cmd : ApplicationCommand)
    (c : CacheState) (hw : wants cache .member = false) :
    memberView (interaction_resolved_step cache cmd c) = memberView c := by
  unfold interaction_resolved_step
  split
  · rename_i resolved heq
    have hfold :
        memberView (resolved.users.foldl (interaction_resolved_user_step cache cmd resolved) c)
          = memberView c :=
      foldl_proj _ memberView
        (fun cc uu => memberView_resolved_user_step cache cmd resolved cc uu hw)
        resolved.users c
    split
    · split
      · rw [memberView_cache_roles]
        exact hfold
      · exact hfold
    · exact hfold
  · rfl

theorem roleView_resolved_step (cache : CacheState) (cmd : ApplicationCommand)
    (c : CacheState) (hw : wants cache .role = false) :
    roleView (interaction_resolved_step cache cmd c) = roleView c := by
  unfold interaction_resolved_step
  split
  · rename_i resolved heq
    have hfold :
        roleView (resolved.users.foldl (interaction_resolved_user_step cache cmd resolved) c)
          = roleView c :=
      foldl_proj _ roleView
        (fun cc uu => roleView_resolved_user_step cache cmd resolved cc uu)
        resolved.users c
    simp only [hw, Bool.false_eq_true, if_false]
    exact hfold
  · rfl

theorem interaction_member_step_skip (c : CacheState) (cmd : ApplicationCommand)
    (hw : wants c .member = false) : interaction_member_step c cmd = Except.ok c := by
  unfold interaction_member_step
  rw [hw]
  simp

theorem roleView_member_step (c : CacheState) (cmd : ApplicationCommand) (c1 : CacheState)
    (h : interaction_member_step c cmd = Except.ok c1) : roleView c1 = roleView c := by
  unfold interaction_member_step at h
  split at h
  · split at h
    · split at h
      · split at h
        · injection h with h
          subst h
          rfl
        · exact Except.noConfusion h
      · injection h with h
        subst h
        rfl
    · injection h with h
      subst h
      rfl
  · injection h with h
    subst h
    rfl

theorem update_interaction_member_gate (i : Interaction) (c c' : CacheState)
    (hw : wants c .member = false)
    (h : update_interaction_create i c = Except.ok c') : memberView c' = memberView c := by
  cases i with
  | applicationCommand cmd =>
    simp only [update_interaction_create, interaction_member_step_skip c cmd hw] at h
    injection h with h
    subst h
    rw [memberView_resolved_step c cmd _ hw, memberView_user_step]
  | notApplicationCommand =>
    simp only [update_interaction_create] at h
    injection h with h
    subst h
    rfl

theorem update_interaction_role_gate (i : Interaction) (c c' : CacheState)
    (hw : wants c .role = false)
    (h : update_interaction_create i c = Except.ok c') : roleView c' = roleView c := by
  cases i with
  | applicationCommand cmd =>
    simp only [update_interaction_create] at h
    cases hm : interaction_member_step c cmd with
    | error e =>
      rw [hm] at h
      exact Except.noConfusion h
    | ok c1 =>
      rw [hm] at h
      injection h with h
      subst h
      rw [roleView_resolved_step c cmd _ hw, roleView_user_step,
        roleView_member_step c cmd c1 hm]
  | notApplicationCommand =>
    simp only [update_interaction_create] at h
    injection h with h
    subst h
    rfl

theorem update_event_member_gate (h : Handlers) (hm : MemberGateRespecting h)
    (e : Event) (c c' : CacheState) (hw : wants c .member = false)
    (he : update_event h e c = Except.ok c') : memberView c' = memberView c := by
  cases e <;> simp only [update_event] at he <;>
    first
      | (exact update_interaction_member_gate _ c c' hw he)
      | (injection he with he; subst he; rfl)
      | (injection he with he; subst he; exact hm _ _ c hw)

theorem update_event_role_gate (h : Handlers) (hr : RoleGateRespecting h)
    (e : Event) (c c' : CacheState) (hw : wants c .role = false)
    (he : update_event h e c = Except.ok c') : roleView c' = roleView c := by
  cases e <;> simp only [update_event] at he <;>
    first
      | (exact update_interaction_role_gate _ c c' hw he)
      | (injection he with he; subst he; rfl)
      | (injection he with he; subst he; exact hr _ _ c hw)

theorem apply_events_member_gate (h : Handlers) (hm : MemberGateRespecting h)
    (events : List Event) (c c' : CacheState) (hw : wants c .member = false)
    (happ : apply_events h events c = Except.ok c') : memberView c' = memberView c := by
  induction events generalizing c with
  | nil =>
    simp only [apply_events] at happ
    injection happ with happ
    subst happ
    rfl
  | cons e rest ih =>
    simp only [apply_events] at happ
    cases hue : update_event h e c with
    | error msg =>
      rw [hue] at happ
      exact Except.noConfusion happ
    | ok c1 =>
      rw [hue] at happ
      have hstep := update_event_member_gate h hm e c c1 hw hue
      have hw1 : wants c1 .member = false := by
        have hcfg : c1.config = c.config := congrArg (fun p => p.2.2) hstep
        unfold wants
        rw [hcfg]
        exact hw
      exact (ih c1 hw1 happ).trans hstep

theorem apply_events_role_gate (h : Handlers) (hr : RoleGateRespecting h)
    (events : List Event) (c c' : CacheState) (hw : wants c .role = false)
    (happ : apply_events h events c = Except.ok c') : roleView c' = roleView c := by
  induction events generalizing c with
  | nil =>
    simp only [apply_events] at happ
    injection happ with happ
    subst happ
    rfl
  | cons e rest ih =>
    simp only [apply_events] at happ
    cases hue : update_event h e c with
    | error msg =>
      rw [hue] at happ
      exact Except.noConfusion happ
    | ok c1 =>
      rw [hue] at happ
      have hstep := update_event_role_gate h hr e c c1 hw hue
      have hw1 : wants c1 .role = false := by
        have hcfg : c1.config = c.config := congrArg (fun p => p.2.2) hstep
        unfold wants
        rw [hcfg]
        exact hw
      exact (ih c1 hw1 happ).trans hstep

/-- A configuration whose resource-type mask contains every category. -/
def allResources : Config := { resource_types := fun _ => true, message_cache_size := 10 }

/-- A configuration whose resource-type mask contains no category. -/
def noResources : Config := { resource_types := fun _ => false, message_cache_size := 10 }

/-- A sample user, the embedded user of the test payload in `interaction.rs`. -/
def sampleUser : User :=
  { avatar := some "avatar string", bot := false, discriminator := "1234", email := none,
    flags := none, id := 6, locale := none, mfa_enabled := none, name := "username",
    premium_type := none, public_flags := none, system := none, verified := none }

/-- A partial member carrying an embedded user. -/
def memberWithUser : PartialMember :=
  { deaf := false, joined_at := some "joined at", mute := false, nick := none,
    permissions := none, premium_since := none, roles := [], user := some sampleUser }

/-- An application command carrying a member with an embedded user but no
guild id, no standalone user and no resolved data. -/
def commandNoGuildId : ApplicationCommand :=
  { application_id := 1, channel_id := 2,
    data := { id := 5, name := "command name", options := [], resolved := none },
    guild_id := none, id := 4, kind := 0, member := some memberWithUser,
    token := "token", user := none }

/-- An application command whose member carries no embedded user, with no
standalone user and no resolved data. -/
def commandNoUser : ApplicationCommand :=
  { commandNoGuildId with member := some { memberWithUser with user := none } }

/-- A map already storing the value 5 at key 1. -/
def eqNatMap : DMap Nat Nat := DMap.empty.insert 1 5

/-- A guild-item map already storing the value 5 (owned by guild 7) at key 1. -/
def eqGuildMap : DMap Nat (GuildItem Nat) := DMap.empty.insert 1 ⟨5, 7⟩

/-- A cache holding one guild, one message window and a current user. -/
def exampleState : CacheState :=
  { freshState allResources with
    guilds := DMap.empty.insert 1 ⟨1⟩
    messages := DMap.empty.insert 2 [⟨10, "hello"⟩, ⟨11, "bye"⟩]
    current_user := some ⟨9, "me"⟩ }

/-- A cache whose current-user mutex is poisoned. -/
def poisonedState : CacheState :=
  { freshState allResources with current_user_poisoned := true }

/-- A cache whose channel-5 voice index holds keys (1, 2) and (1, 3) while
the voice-state table only has an entry for (1, 2). -/
def voiceExampleState : CacheState :=
  { freshState allResources with
    voice_state_channels := DMap.empty.insert 5 [(1, 2), (1, 3)]
    voice_states := DMap.empty.insert (1, 2) ⟨some 5, some 1, 2⟩ }

/-- C1, amended: upserting a structurally equal value through the guild-item
path (`upsert_guild_item`) leaves the store untouched and performs no write,
while the plain-item path (`upsert_item`) always performs a write
(unconditional `insert`), though the resulting table maps every key to the
same value as before when the stored value was equal. -/
theorem upsert_equal_noop_c1 {K V : Type} [DecidableEq K] [DecidableEq V]
    (gmap : DMap K (GuildItem V)) (pmap : DMap K V) (gid : GuildId) (k : K) (v : V)
    (entry : GuildItem V) (hg : gmap.get k = some entry) (hd : entry.data = v)
    (hp : pmap.get k = some v) :
    upsert_guild_item gmap gid k v = (gmap, false) ∧
    (upsert_item pmap k v).2 = true ∧
    ∀ q, ((upsert_item pmap k v).1).get q = pmap.get q := by
  refine ⟨?_, rfl, ?_⟩
  · unfold upsert_guild_item
    simp only [hg]
    rw [if_pos hd]
  · intro q
    unfold upsert_item
    by_cases hq : q = k
    · subst hq
      rw [DMap.get_insert_self, hp]
    · simp [DMap.get_insert, hq]

/-- C1 counterexample: the plain-item path writes the store even when the
stored value at the key is structurally equal to the upserted value, so the
claim that the equal upsert does not replace the stored entry on the
plain-item path is false at this input. -/
theorem upsert_item_equal_writes_c1_cex :
    eqNatMap.get 1 = some 5 ∧ (upsert_item eqNatMap 1 5).2 = true :=
  ⟨rfl, rfl⟩

/-- C1 witness: the amended theorem at a concrete stored-equal input. -/
theorem upsert_equal_noop_c1_witness :
    upsert_guild_item eqGuildMap 7 1 5 = (eqGuildMap, false) ∧
    ((upsert_item eqNatMap 1 5).1).get 1 = eqNatMap.get 1 :=
  ⟨(upsert_equal_noop_c1 eqGuildMap eqNatMap 7 1 5 ⟨5, 7⟩ rfl rfl rfl).1,
   (upsert_equal_noop_c1 eqGuildMap eqNatMap 7 1 5 ⟨5, 7⟩ rfl rfl rfl).2.2 1⟩

/-- C2: ingestion of an `InteractionCreate` application command that carries
a member with an embedded user but no guild id panics (the source's
`command.guild_id.unwrap()`), contradicting the specification that ingestion
never fails; this theorem evaluates the embedded handler at that input. -/
theorem interaction_unwrap_panic_c2 :
    update_event idHandlers
      (.interactionCreate (.applicationCommand commandNoGuildId)) (freshState allResources)
      = Except.error "called `Option::unwrap()` on a `None` value" := rfl

/-- C3: the dispatcher is a total function on the closed event sum type (the
`match` in `impl UpdateCache for Event` is exhaustive, mirrored by the
totality of `update_event` over `Event`), and for every connection-lifecycle
event, typing indicator and ban event the handler is an explicit no-op that
returns the cache unchanged, for every choice of the handlers that are not
among the provided sources. -/
theorem dispatcher_noop_c3 (h : Handlers) (e : Event) (c : CacheState)
    (he : lifecycle_typing_or_ban e = true) :
    update_event h e c = Except.ok c := by
  cases e <;> simp only [lifecycle_typing_or_ban] at he <;>
    first
      | rfl
      | exact Bool.noConfusion he

/-- C3 witness: the no-op equation at a typing indicator on a fresh cache. -/
theorem dispatcher_noop_c3_witness :
    lifecycle_typing_or_ban (.typingStart ⟨0⟩) = true ∧
    update_event idHandlers (.typingStart ⟨0⟩) (freshState allResources)
      = Except.ok (freshState allResources) :=
  ⟨rfl, dispatcher_noop_c3 idHandlers (.typingStart ⟨0⟩) (freshState allResources) rfl⟩

/-- A cache holding a stage instance (id 21, owned by guild 1) and guild 1
itself. -/
def stageState : CacheState :=
  { freshState allResources with
    guilds := DMap.empty.insert 1 ⟨1⟩
    stage_instances := DMap.empty.insert 21 ⟨⟨21⟩, 1⟩ }

/-- C5: the source `clear()` (`lib.rs` 228-256) never calls
`self.0.stage_instances.clear()`, so after clearing a cache that held a
stage instance the `stage_instance` getter still returns it, while the other
tables (here the guild table) do report absent — contradicting the claim
(and `clear`'s own doc, "This is equal to creating a new empty cache").
This theorem evaluates the embedded code at that failing input. -/
theorem clear_stage_instance_bug_c5 :
    (clear stageState).map (fun c' => (stage_instance c' 21, guild c' 1))
      = Except.ok (some ⟨21⟩, none) := rfl

/-- C6: every getter of the query surface returns the explicit absent value
`none` for a missing key, never an error, and returns the stored entity's
value (a point-in-time copy, the source's `.clone()`) for a present key:
the per-entity getters, the six per-guild collection getters, the message
getter (whose returned value is a stored window entry), the voice-channel
getter (whose returned values are stored voice states) and the current-user
getter (which, with a healthy lock, returns exactly the stored optional
value, `none` standing for absent). -/
theorem getters_absent_present_c6 (c : CacheState) (g : GuildId) (ch : ChannelId)
    (u : UserId) (r : RoleId) (e : EmojiId) (st : StageId) (mid : MessageId) :
    (c.guilds.get g = none → guild c g = none) ∧
    (∀ v, c.guilds.get g = some v → guild c g = some v) ∧
    (c.channels_guild.get ch = none → guild_channel c ch = none) ∧
    (∀ v, c.channels_guild.get ch = some v → guild_channel c ch = some v.data) ∧
    (c.channels_private.get ch = none → private_channel c ch = none) ∧
    (∀ v, c.channels_private.get ch = some v → private_channel c ch = some v) ∧
    (c.groups.get ch = none → group c ch = none) ∧
    (∀ v, c.groups.get ch = some v → group c ch = some v) ∧
    (c.members.get (g, u) = none → member c g u = none) ∧
    (∀ v, c.members.get (g, u) = some v → member c g u = some v) ∧
    (c.users.get u = none → user c u = none) ∧
    (∀ v, c.users.get u = some v → user c u = some v.1) ∧
    (c.presences.get (g, u) = none → presence c g u = none) ∧
    (∀ v, c.presences.get (g, u) = some v → presence c g u = some v) ∧
    (c.roles.get r = none → role c r = none) ∧
    (∀ v, c.roles.get r = some v → role c r = some v.data) ∧
    (c.emojis.get e = none → emoji c e = none) ∧
    (∀ v, c.emojis.get e = some v → emoji c e = some v.data) ∧
    (c.stage_instances.get st = none → stage_instance c st = none) ∧
    (∀ v, c.stage_instances.get st = some v → stage_instance c st = some v.data) ∧
    (c.voice_states.get (g, u) = none → voice_state c u g = none) ∧
    (∀ v, c.voice_states.get (g, u) = some v → voice_state c u g = some v) ∧
    (c.guild_channels.get g = none → guild_channels c g = none) ∧
    (∀ v, c.guild_channels.get g = some v → guild_channels c g = some v) ∧
    (c.guild_emojis.get g = none → guild_emojis c g = none) ∧
    (∀ v, c.guild_emojis.get g = some v → guild_emojis c g = some v) ∧
    (c.guild_members.get g = none → guild_members c g = none) ∧
    (∀ v, c.guild_members.get g = some v → guild_members c g = some v) ∧
    (c.guild_presences.get g = none → guild_presences c g = none) ∧
    (∀ v, c.guild_presences.get g = some v → guild_presences c g = some v) ∧
    (c.guild_roles.get g = none → guild_roles c g = none) ∧
    (∀ v, c.guild_roles.get g = some v → guild_roles c g = some v) ∧
    (c.guild_stage_instances.get g = none → guild_stage_instances c g = none) ∧
    (∀ v, c.guild_stage_instances.get g = some v → guild_stage_instances c g = some v) ∧
    (c.messages.get ch = none → message c ch mid = none) ∧
    (∀ y, message c ch mid = some y →
      ∃ w, c.messages.get ch = some w ∧ y ∈ w ∧ y.id = mid) ∧
    (c.voice_state_channels.get ch = none → voice_channel_states c ch = none) ∧
    (∀ l, voice_channel_states c ch = some l →
      ∀ v, v ∈ l → ∃ k, c.voice_states.get k = some v) ∧
    (c.current_user_poisoned = false → current_user c = Except.ok c.current_user) := by
  refine ⟨?_, ?_, ?_, ?_, ?_, ?_, ?_, ?_, ?_, ?_, ?_, ?_, ?_, ?_, ?_, ?_, ?_, ?_, ?_,
    ?_, ?_, ?_, ?_, ?_, ?_, ?_, ?_, ?_, ?_, ?_, ?_, ?_, ?_, ?_, ?_, ?_, ?_, ?_, ?_⟩ <;>
    first
      | (intro y hy
         unfold message at hy
         rw [Option.bind_eq_some] at hy
         obtain ⟨w, hw, hf⟩ := hy
         exact ⟨w, hw, List.mem_of_find?_eq_some hf, by simpa using List.find?_some hf⟩)
      | (intro l hl v hv
         unfold voice_channel_states at hl
         cases hk : c.voice_state_channels.get ch with
         | none =>
           rw [hk] at hl
           exact Option.noConfusion hl
         | some keys =>
           rw [hk] at hl
           have hl2 : some (keys.filterMap fun k => c.voice_states.get k) = some l := hl
           injection hl2 with hl2
           subst hl2
           obtain ⟨k, hk2, hkv⟩ := List.mem_filterMap.mp hv
           exact ⟨k, hkv⟩)
      | (intro hp
         simp [current_user, hp]
         done)
      | (intro hv
         simp [guild, guild_channel, private_channel, group, member, user, presence,
           role, emoji, stage_instance, voice_state, guild_channels, guild_emojis,
           guild_members, guild_presences, guild_roles, guild_stage_instances,
           message, voice_channel_states, hv]
         done)
      | (intro v hv
         simp [guild, guild_channel, private_channel, group, member, user, presence,
           role, emoji, stage_instance, voice_state, guild_channels, guild_emojis,
           guild_members, guild_presences, guild_roles, guild_stage_instances, hv]
         done)

/-- C6 witness: the guild getter at an absent and at a present key of a
concrete cache. -/
theorem getters_absent_present_c6_witness :
    guild exampleState 2 = none ∧ guild exampleState 1 = some ⟨1⟩ :=
  ⟨(getters_absent_present_c6 exampleState 2 1 1 1 1 1 1).1 rfl,
   (getters_absent_present_c6 exampleState 1 1 1 1 1 1 1).2.1 ⟨1⟩ rfl⟩

/-- C7: the message getter is absent when the channel has no window; absent
when no entry of the window carries the id; and when some entry carries the
id it returns a member of the window carrying that id (the first hit of the
linear scan). -/
theorem message_find_c7 (c : CacheState) (ch : ChannelId) (mid : MessageId) :
    (c.messages.get ch = none → message c ch mid = none) ∧
    (∀ w, c.messages.get ch = some w → (∀ x ∈ w, x.id ≠ mid) →
      message c ch mid = none) ∧
    (∀ w, c.messages.get ch = some w → ∀ x ∈ w, x.id = mid →
      ∃ y ∈ w, y.id = mid ∧ message c ch mid = some y) := by
  refine ⟨?_, ?_, ?_⟩
  · intro hv
    unfold message
    rw [hv]
    rfl
  · intro w hw hne
    unfold message
    rw [hw]
    show w.find? (fun msg => msg.id == mid) = none
    rw [List.find?_eq_none]
    intro x hx
    simpa using hne x hx
  · intro w hw x hx hxid
    unfold message
    rw [hw]
    have hsome : (w.find? fun msg => msg.id == mid).isSome :=
      List.find?_isSome.mpr ⟨x, hx, by simpa using hxid⟩
    obtain ⟨y, hy⟩ := Option.isSome_iff_exists.mp hsome
    exact ⟨y, List.mem_of_find?_eq_some hy, by simpa using List.find?_some hy,
      by simp [hy]⟩

/-- C7 witness: the scan at a concrete window, one absent id, one present. -/
theorem message_find_c7_witness :
    message exampleState 2 9 = none ∧
    ∃ y ∈ [(⟨10, "hello"⟩ : CachedMessage), ⟨11, "bye"⟩], y.id = 11 ∧
      message exampleState 2 11 = some y :=
  ⟨(message_find_c7 exampleState 2 9).2.1 _ rfl (by decide),
   (message_find_c7 exampleState 2 11).2.2 _ rfl ⟨11, "bye"⟩ (by decide) rfl⟩

/-- C8: once the current-user lock is poisoned, both operations that take it
(`current_user` and `clear`) propagate the panic (the `Except` error carries
the source's `.expect` message) and never return a value. -/
theorem poisoned_lock_panics_c8 (c : CacheState) (h : c.current_user_poisoned = true) :
    current_user c = Except.error "current user poisoned" ∧
    clear c = Except.error "current user poisoned" := by
  unfold current_user clear
  rw [h]
  exact ⟨rfl, rfl⟩

/-- C8 witness: a concretely poisoned cache. -/
theorem poisoned_lock_panics_c8_witness :
    current_user poisonedState = Except.error "current user poisoned" ∧
    clear poisonedState = Except.error "current user poisoned" :=
  poisoned_lock_panics_c8 poisonedState rfl

/-- C9: the voice-channel query is absent exactly when the channel has no
index set; otherwise it returns exactly the voice states whose key is both
in the channel's index set and present in the voice-state table, keys
missing from the table silently omitted. -/
theorem voice_channel_states_c9 (c : CacheState) (ch : ChannelId) :
    (c.voice_state_channels.get ch = none → voice_channel_states c ch = none) ∧
    (∀ keys, c.voice_state_channels.get ch = some keys →
      ∃ l, voice_channel_states c ch = some l ∧
        ∀ v, v ∈ l ↔ ∃ k ∈ keys, c.voice_states.get k = some v) := by
  constructor
  · intro hv
    unfold voice_channel_states
    rw [hv]
  · intro keys hk
    unfold voice_channel_states
    rw [hk]
    refine ⟨_, rfl, ?_⟩
    intro v
    simp [List.mem_filterMap]

/-- C9 witness: a channel index holding one key with a voice state and one
dangling key; the dangling key is silently omitted. -/
theorem voice_channel_states_c9_witness :
    ∃ l, voice_channel_states voiceExampleState 5 = some l ∧
      ∀ v, v ∈ l ↔ ∃ k ∈ [((1 : GuildId), (2 : UserId)), (1, 3)],
        voiceExampleState.voice_states.get k = some v :=
  (voice_channel_states_c9 voiceExampleState 5).2 [(1, 2), (1, 3)] rfl

/-- C10: an `InteractionCreate` whose interaction is not an application
command is a no-op, and an application command whose member carries no
embedded user (with no standalone user and no resolved data) is a no-op:
the handler returns the cache unchanged and fabricates no member record. -/
theorem interaction_frame_c10 (c : CacheState) :
    (∀ (cmd : ApplicationCommand) (pm : PartialMember),
      cmd.member = some pm → pm.user = none → cmd.user = none →
      cmd.data.resolved = none →
      update_interaction_create (.applicationCommand cmd) c = Except.ok c) ∧
    update_interaction_create .notApplicationCommand c = Except.ok c := by
  constructor
  · intro cmd pm hm hu hcu hr
    cases hwm : wants c .member <;>
      simp [update_interaction_create, interaction_member_step, interaction_user_step,
        interaction_resolved_step, hm, hu, hcu, hr, hwm]
  · rfl

/-- C10 witness: the no-op at a concrete command whose member has no
embedded user. -/
theorem interaction_frame_c10_witness :
    update_interaction_create (.applicationCommand commandNoUser) (freshState allResources)
      = Except.ok (freshState allResources) :=
  (interaction_frame_c10 (freshState allResources)).1 commandNoUser
    { memberWithUser with user := none } rfl rfl rfl rfl

end Twilight
